import Mathlib

/-
Verification of the financial dashboard pipeline implemented in src/app.py.

The program builds a price table indexed by trading dates, forward-fills
missing observations, derives a base-100 growth index
(data_normalizada = (data_historica / data_historica.iloc[0]) * 100) and a
daily-return table (rendimientos_diarios = data_historica.pct_change().dropna()),
filters by a user-chosen date range and asset subset, classifies the latest
NVDA and USD/MXN observations against fixed threshold bands, and computes a
Pearson correlation matrix of the filtered returns.

Pandas float cells are modelled by the type Cell below: a finite rational
value, a signed infinity (produced by division by zero), or NaN (which also
represents a missing observation, as in pandas float columns).  Arithmetic on
Cell follows IEEE semantics on the paths the program exercises: NaN is
absorbing, x / 0 is a signed infinity for x different from 0, and 0 / 0 is
NaN.  Comparisons against NaN are false, as in Python.
-/

/-- A pandas float cell: a finite rational, plus infinity, minus infinity,
or NaN (NaN doubles as the missing-value marker of a float column). -/
inductive Cell where
  | num (q : ℚ)
  | pinf
  | minf
  | nan
deriving DecidableEq, Repr

/-- Division of cells, following IEEE semantics: NaN is absorbing,
a / 0 is a signed infinity for finite nonzero a, 0 / 0 is NaN, and a
finite value divided by an infinity is 0. -/
def Cell.divC : Cell → Cell → Cell
  | .nan, _ => .nan
  | _, .nan => .nan
  | .num a, .num b =>
      if b = 0 then (if a = 0 then .nan else if 0 < a then .pinf else .minf)
      else .num (a / b)
  | .num _, .pinf => .num 0
  | .num _, .minf => .num 0
  | .pinf, .num b => if b < 0 then .minf else .pinf
  | .minf, .num b => if b < 0 then .pinf else .minf
  | .pinf, _ => .nan
  | .minf, _ => .nan

/-- Multiplication of a cell by the positive constant 100. -/
def Cell.mul100 : Cell → Cell
  | .num a => .num (a * 100)
  | c => c

/-- Subtraction of 1 from a cell. -/
def Cell.sub1 : Cell → Cell
  | .num a => .num (a - 1)
  | c => c

/-- Test for NaN, the pandas missing-value marker. -/
def Cell.isna : Cell → Bool
  | .nan => true
  | _ => false

/-- Python comparison c < q: false when c is NaN. -/
def Cell.ltQ (c : Cell) (q : ℚ) : Bool :=
  match c with
  | .num a => decide (a < q)
  | .minf => true
  | .pinf => false
  | .nan => false

/-- Python comparison c > q: false when c is NaN. -/
def Cell.gtQ (c : Cell) (q : ℚ) : Bool :=
  match c with
  | .num a => decide (q < a)
  | .minf => false
  | .pinf => true
  | .nan => false

/-- A cell that may serve as the base row of the growth index: a finite
nonzero value (present and not zero). -/
def Cell.baseValida : Cell → Bool
  | .num q => decide (q ≠ 0)
  | _ => false

/-- A cell holding a finite positive value (a present closing price). -/
def Cell.esPositivo : Cell → Bool
  | .num q => decide (0 < q)
  | _ => false

/-- A cell admissible in a Price Table: a positive closing price or a
missing observation. -/
def Cell.esPrecio : Cell → Bool
  | .num q => decide (0 < q)
  | .nan => true
  | _ => false

/-- A Price Table with w columns: every row has width w and every cell is a
positive price or missing (the data model of the specification). -/
def esTablaPrecios (w : ℕ) (rows : List (List Cell)) : Bool :=
  rows.all fun r => r.length == w && r.all Cell.esPrecio

/-- A fully observed Price Table with w columns: every row has width w and
every cell is a present, positive price. -/
def tablaCompleta (w : ℕ) (rows : List (List Cell)) : Bool :=
  rows.all fun r => r.length == w && r.all Cell.esPositivo

/-- Forward-fill of one cell: keep the current value unless it is missing,
in which case the previous (already filled) value propagates. -/
def ffillCell (prev cur : Cell) : Cell :=
  if cur.isna then prev else cur

/-- Forward-fill of the remaining rows, carrying the previous filled row. -/
def ffillFrom (prev : List Cell) : List (List Cell) → List (List Cell)
  | [] => []
  | r :: rs =>
      let rf := List.zipWith ffillCell prev r
      rf :: ffillFrom rf rs

/-- Forward-fill along the date axis, per column, as data.ffill() does in
load_data: the first row is unchanged (leading gaps remain missing) and
later missing cells take the last known value of their column. -/
def ffillRows (rows : List (List Cell)) : List (List Cell) :=
  match rows with
  | [] => []
  | r :: rs => r :: ffillFrom r rs

/-- Row-over-row percent change of one cell: cur / prev - 1. -/
def pctCell (prev cur : Cell) : Cell :=
  (cur.divC prev).sub1

/-- Percent change of a table, as DataFrame.pct_change(): values are
forward-filled first (the default pad fill of pandas), the first row is all
NaN, and row t holds padded[t] / padded[t-1] - 1 per column. -/
def pctRows (rows : List (List Cell)) : List (List Cell) :=
  let p := ffillRows rows
  match p with
  | [] => []
  | r0 :: _ =>
      (r0.map fun _ => Cell.nan) ::
        List.zipWith (fun pr cr => List.zipWith pctCell pr cr) p p.tail

/-- Drop of every row containing at least one NaN, as DataFrame.dropna()
with the default how=any. -/
def dropnaRows (rows : List (List Cell)) : List (List Cell) :=
  rows.filter fun r => r.all fun c => !c.isna

/-- The base-100 growth index of src/app.py line 74:
data_normalizada = (data_historica / data_historica.iloc[0]) * 100.
Every row is divided elementwise by the first row and scaled by 100; the
expression never fails, division by a zero base yields an infinity and a
missing base yields NaN. -/
def data_normalizada (rows : List (List Cell)) : List (List Cell) :=
  match rows with
  | [] => []
  | r0 :: _ => rows.map fun r => List.zipWith (fun x b => (x.divC b).mul100) r r0

/-- The daily-return table of src/app.py line 75:
rendimientos_diarios = data_historica.pct_change().dropna(). -/
def rendimientos_diarios (rows : List (List Cell)) : List (List Cell) :=
  dropnaRows (pctRows rows)

/-- Modelled from the spec: growth_index fails with DomainError if any
column of the first row is zero or missing, and otherwise divides every
value by the first value of its column and multiplies by 100.  This is the
behaviour section 4.4 of the specification prescribes; the code under
src/app.py has no such failure path, so this definition exists only to be
compared against data_normalizada. -/
def growth_index_spec (rows : List (List Cell)) : Except String (List (List Cell)) :=
  match rows with
  | [] => Except.ok []
  | r0 :: _ =>
      if r0.all Cell.baseValida then
        Except.ok (rows.map fun r => List.zipWith (fun x b => (x.divC b).mul100) r r0)
      else
        Except.error "DomainError"

/-- The result of load_data in src/app.py lines 31 to 46: the downloaded
Close table is forward-filled and returned with no diagnostic, while any
provider exception is caught and converted into an empty table paired with
a human-readable error message, so nothing is raised to the caller. -/
def load_data (descarga : Except String (List (List Cell))) :
    List (List Cell) × Option String :=
  match descarga with
  | Except.ok data => (ffillRows data, none)
  | Except.error e =>
      ([], some ("Error al descargar datos. Asegurate de que los tickers son validos y hay conexion a internet: " ++ e))

/-- NVDA support threshold of src/app.py line 235. -/
def umbral_nvda_correccion : ℚ := 150

/-- NVDA euphoria threshold of src/app.py line 236. -/
def umbral_nvda_euforia : ℚ := 750

/-- USD/MXN weak-peso threshold of src/app.py line 237. -/
def umbral_usdmxn_debil : ℚ := 19

/-- USD/MXN strong-peso threshold of src/app.py line 238. -/
def umbral_usdmxn_fuerte : ℚ := 17

/-- Severity of a threshold alert: the closed set the bands classify into. -/
inductive Severidad where
  | riesgo
  | normal
  | oportunidad
deriving DecidableEq, Repr

/-- Band classification of the NVDA alert, src/app.py lines 257 to 262:
below the support threshold is risk, above the euphoria threshold is
opportunity, otherwise the operating range. -/
def clasifica_nvda (p : ℚ) : Severidad :=
  if p < umbral_nvda_correccion then Severidad.riesgo
  else if p > umbral_nvda_euforia then Severidad.oportunidad
  else Severidad.normal

/-- Band classification of the USD/MXN alert, src/app.py lines 270 to 275:
above the weak-peso threshold is risk, below the strong-peso threshold is
opportunity, otherwise the neutral range. -/
def clasifica_usdmxn (p : ℚ) : Severidad :=
  if p > umbral_usdmxn_debil then Severidad.riesgo
  else if p < umbral_usdmxn_fuerte then Severidad.oportunidad
  else Severidad.normal

/-- Outcome of one alert block: a classification, or the could-not-verify
message shown when the try block raised (for example iloc on an empty
column). -/
inductive Alerta where
  | clasificada (s : Severidad)
  | sin_verificar
deriving DecidableEq, Repr

/-- The NVDA alert block, src/app.py lines 254 to 264: read the last value
of the column (iloc[-1] raises on an empty column, caught by the except
branch) and compare it against the two thresholds; NaN compares false and
falls into the operating-range branch. -/
def alerta_nvda (col : List Cell) : Alerta :=
  match col.getLast? with
  | none => Alerta.sin_verificar
  | some c =>
      if c.ltQ umbral_nvda_correccion then Alerta.clasificada Severidad.riesgo
      else if c.gtQ umbral_nvda_euforia then Alerta.clasificada Severidad.oportunidad
      else Alerta.clasificada Severidad.normal

/-- The USD/MXN alert block, src/app.py lines 267 to 277, built like the
NVDA block from the last value of the column. -/
def alerta_usdmxn (col : List Cell) : Alerta :=
  match col.getLast? with
  | none => Alerta.sin_verificar
  | some c =>
      if c.gtQ umbral_usdmxn_debil then Alerta.clasificada Severidad.riesgo
      else if c.ltQ umbral_usdmxn_fuerte then Alerta.clasificada Severidad.oportunidad
      else Alerta.clasificada Severidad.normal

/-- Evaluation of the two alert blocks: each subject is wrapped in its own
try block, so the outcomes are computed independently. -/
def evalua_alertas (nvda usdmxn : List Cell) : Alerta × Alerta :=
  (alerta_nvda nvda, alerta_usdmxn usdmxn)

/-- Outcome of one KPI card: the latest value with its day-over-day change,
or N/A when the try block raised. -/
inductive Kpi where
  | metrica (ultimo cambio : Cell)
  | na
deriving DecidableEq, Repr

/-- A KPI card, src/app.py lines 142 to 147: latest value iloc[-1] and
day-over-day change iloc[-1] / iloc[-2] - 1; any failure (fewer than two
observations) is caught and shown as N/A. -/
def kpi_metric (col : List Cell) : Kpi :=
  match col.getLast?, col.dropLast.getLast? with
  | some u, some p => Kpi.metrica u ((u.divC p).sub1)
  | _, _ => Kpi.na

/-- The date-range guard of src/app.py lines 113 to 121: when the start
date is after the end date an error is signalled in the sidebar (first
component true) and the range falls back to the full table index; otherwise
no error is signalled and the chosen range is used. -/
def fechas_filtro (fecha_inicio fecha_fin idx_min idx_max : ℤ) :
    Bool × ℤ × ℤ :=
  if fecha_inicio > fecha_fin then (true, idx_min, idx_max)
  else (false, fecha_inicio, fecha_fin)

/-- Column selection of a row by positions, modelling label selection of
.loc on the asset subset. -/
def selecciona_columnas (cols : List ℕ) (r : List Cell) : List Cell :=
  cols.map fun j => r.getD j Cell.nan

/-- The filtered growth table of src/app.py line 125:
data_filtrada = data_normalizada.loc[fecha_inicio_ts:fecha_fin_ts, activos].
Normalization happens first on the full table; only then are rows outside
the closed date interval discarded and the asset columns selected. -/
def data_filtrada (fechas : List ℤ) (rows : List (List Cell))
    (inicio fin : ℤ) (cols : List ℕ) : List (ℤ × List Cell) :=
  ((fechas.zip (data_normalizada rows)).filter
      fun p => decide (inicio ≤ p.1) && decide (p.1 ≤ fin)).map
    fun p => (p.1, selecciona_columnas cols p.2)

/-- Mean of a list of rationals, 0 on the empty list. -/
def media (xs : List ℚ) : ℚ := xs.sum / xs.length

/-- Centered cross sum of two columns: the numerator of the Pearson
correlation as pandas nancorr computes it (the sample-size factors of the
covariance cancel in the quotient). -/
def covS (xs ys : List ℚ) : ℚ :=
  ∑ i ∈ Finset.range xs.length,
    (xs.getD i 0 - media xs) * (ys.getD i 0 - media ys)

/-- Centered square sum of a column. -/
def varS (xs : List ℚ) : ℚ := covS xs xs

/-- Pearson correlation of two columns over the reals:
covS / sqrt (varS * varS), the formula DataFrame.corr() evaluates in
floating point. -/
noncomputable def corrP (xs ys : List ℚ) : ℝ :=
  (covS xs ys : ℝ) / Real.sqrt ((varS xs : ℝ) * (varS ys : ℝ))

/-- The correlation matrix of src/app.py line 283:
matriz_corr = rendimientos_filtrados.corr(), entry (i, j) being the Pearson
correlation of columns i and j of the filtered return table. -/
noncomputable def matriz_corr (cols : List (List ℚ)) (i j : ℕ) : ℝ :=
  corrP (cols.getD i []) (cols.getD j [])

/-
Helper lemmas about cells and the Boolean table predicates.
-/

theorem baseValida_elim {c : Cell} (h : c.baseValida = true) :
    ∃ q : ℚ, q ≠ 0 ∧ c = Cell.num q := by
  cases c with
  | num q => exact ⟨q, by simpa [Cell.baseValida] using h, rfl⟩
  | pinf => simp [Cell.baseValida] at h
  | minf => simp [Cell.baseValida] at h
  | nan => simp [Cell.baseValida] at h

theorem esPositivo_elim {c : Cell} (h : c.esPositivo = true) :
    ∃ q : ℚ, 0 < q ∧ c = Cell.num q := by
  cases c with
  | num q => exact ⟨q, by simpa [Cell.esPositivo] using h, rfl⟩
  | pinf => simp [Cell.esPositivo] at h
  | minf => simp [Cell.esPositivo] at h
  | nan => simp [Cell.esPositivo] at h

theorem pctCell_num {a b : ℚ} (ha : a ≠ 0) :
    pctCell (Cell.num a) (Cell.num b) = Cell.num (b / a - 1) := by
  simp [pctCell, Cell.divC, Cell.sub1, ha]

theorem tablaCompleta_ancho {w : ℕ} {rows : List (List Cell)}
    (h : tablaCompleta w rows = true) : ∀ r ∈ rows, r.length = w := by
  intro r hr
  have h2 := List.all_eq_true.mp h r hr
  rw [Bool.and_eq_true, beq_iff_eq] at h2
  exact h2.1

theorem tablaCompleta_pos {w : ℕ} {rows : List (List Cell)}
    (h : tablaCompleta w rows = true) :
    ∀ r ∈ rows, ∀ c ∈ r, c.esPositivo = true := by
  intro r hr c hc
  have h2 := List.all_eq_true.mp h r hr
  rw [Bool.and_eq_true] at h2
  exact List.all_eq_true.mp h2.2 c hc

/-
Claim theorems for the alert evaluator, the date-range guard, the fetcher
and the growth index.
-/

/-- C3: the threshold evaluator, configured with the bands of src/app.py
(below 150 risk, 150 to 750 normal, above 750 opportunity), classifies
140.0 as risk, 760.0 as opportunity and 400.0 as normal, and every value
falls into exactly one band (each severity is reached exactly on its
band). -/
theorem c3_clasificacion_bandas :
    clasifica_nvda 140 = Severidad.riesgo ∧
    clasifica_nvda 760 = Severidad.oportunidad ∧
    clasifica_nvda 400 = Severidad.normal ∧
    ∀ v : ℚ,
      (clasifica_nvda v = Severidad.riesgo ↔ v < umbral_nvda_correccion) ∧
      (clasifica_nvda v = Severidad.oportunidad ↔ umbral_nvda_euforia < v) ∧
      (clasifica_nvda v = Severidad.normal ↔
        umbral_nvda_correccion ≤ v ∧ v ≤ umbral_nvda_euforia) := by
  refine ⟨by decide, by decide, by decide, fun v => ?_⟩
  unfold clasifica_nvda
  split_ifs with h1 h2
  · exact ⟨iff_of_true rfl h1,
      iff_of_false (by decide) (fun h => absurd h1 (by
        simp only [umbral_nvda_correccion, umbral_nvda_euforia] at *
        linarith)),
      iff_of_false (by decide) (fun h => absurd h1 (not_lt.mpr h.1))⟩
  · exact ⟨iff_of_false (by decide) h1,
      iff_of_true rfl h2,
      iff_of_false (by decide) (fun h => absurd h2 (not_lt.mpr h.2))⟩
  · exact ⟨iff_of_false (by decide) h1,
      iff_of_false (by decide) h2,
      iff_of_true rfl ⟨not_lt.mp h1, not_lt.mp h2⟩⟩

theorem c3_witness : clasifica_nvda 155 = Severidad.normal :=
  ((c3_clasificacion_bandas.2.2.2 155).2.2).mpr
    ⟨by norm_num [umbral_nvda_correccion], by norm_num [umbral_nvda_euforia]⟩

/-- C10: every band comparison is strict, so a value sitting exactly on a
configured boundary (150 or 750 for NVDA, 17 or 19 for USD/MXN) lands in
the neutral in-range band, not in either extreme band. -/
theorem c10_fronteras_neutras :
    clasifica_nvda umbral_nvda_correccion = Severidad.normal ∧
    clasifica_nvda umbral_nvda_euforia = Severidad.normal ∧
    clasifica_usdmxn umbral_usdmxn_fuerte = Severidad.normal ∧
    clasifica_usdmxn umbral_usdmxn_debil = Severidad.normal := by
  decide

/-- C5: whenever the chosen start date is after the end date, the range
guard signals the invalid range (an error is shown in the sidebar) and the
applied range falls back to the full table index, the documented policy,
rather than being used silently. -/
theorem c5_rango_invalido (fecha_inicio fecha_fin idx_min idx_max : ℤ)
    (h : fecha_inicio > fecha_fin) :
    (fechas_filtro fecha_inicio fecha_fin idx_min idx_max).1 = true ∧
    (fechas_filtro fecha_inicio fecha_fin idx_min idx_max).2 =
      (idx_min, idx_max) := by
  unfold fechas_filtro
  rw [if_pos h]
  exact ⟨rfl, rfl⟩

theorem c5_witness :
    (fechas_filtro 5 3 0 9).1 = true ∧ (fechas_filtro 5 3 0 9).2 = (0, 9) :=
  c5_rango_invalido 5 3 0 9 (by decide)

/-- C7: when the provider fails, load_data does not raise to its caller:
the exception is caught and the function returns the empty table paired
with the human-readable diagnostic that names the underlying error. -/
theorem c7_descarga_fallida (e : String) :
    load_data (Except.error e) =
      ([], some ("Error al descargar datos. Asegurate de que los tickers son validos y hay conexion a internet: " ++ e)) :=
  rfl

theorem c7_witness :
    load_data (Except.error "sin conexion") =
      ([], some ("Error al descargar datos. Asegurate de que los tickers son validos y hay conexion a internet: " ++ "sin conexion")) :=
  c7_descarga_fallida "sin conexion"

/-- C2 counterexample: a Price Table whose single column has a missing
first value.  The specification demands a DomainError, and the modelled
spec function growth_index_spec indeed fails, but the code, line 74 of
src/app.py, does not fail: it returns a table of NaN for that column. -/
theorem c2_counterexample :
    esTablaPrecios 1 [[Cell.nan], [Cell.num 5]] = true ∧
    growth_index_spec [[Cell.nan], [Cell.num 5]] = Except.error "DomainError" ∧
    data_normalizada [[Cell.nan], [Cell.num 5]] = [[Cell.nan], [Cell.nan]] := by
  exact ⟨by decide, rfl, by decide⟩

/-- C2 amended: the growth index never fails; on every table whose first
row is fully present and nonzero it agrees with the specified
growth_index (each column divided by its first value and scaled by 100),
while a zero or missing first value silently produces infinity or NaN
markers instead of a DomainError. -/
theorem c2_sin_fallo (rows : List (List Cell))
    (hv : (rows.head?.getD []).all Cell.baseValida = true) :
    growth_index_spec rows = Except.ok (data_normalizada rows) := by
  cases rows with
  | nil => rfl
  | cons r0 rest =>
      simp only [List.head?_cons, Option.getD_some] at hv
      simp only [growth_index_spec, data_normalizada, if_pos hv]

theorem c2_witness :
    growth_index_spec [[Cell.num 2], [Cell.num 4]] =
      Except.ok (data_normalizada [[Cell.num 2], [Cell.num 4]]) :=
  c2_sin_fallo [[Cell.num 2], [Cell.num 4]] (by decide)

/-- C6: for every Price Table whose first row is fully present and
nonzero, the first row of the growth index is 100 in every column (exactly
100, since the embedding computes with rationals). -/
theorem c6_fila_base_100 (r0 : List Cell) (rest : List (List Cell))
    (hv : r0.all Cell.baseValida = true) :
    (data_normalizada (r0 :: rest)).head? =
      some (r0.map fun _ => Cell.num 100) := by
  unfold data_normalizada
  simp only [List.map_cons, List.head?_cons, Option.some.injEq]
  rw [List.zipWith_same]
  apply List.map_congr_left
  intro c hc
  obtain ⟨q, hq, rfl⟩ := baseValida_elim (List.all_eq_true.mp hv c hc)
  simp [Cell.divC, Cell.mul100, hq, div_self hq]

theorem c6_witness :
    (data_normalizada [[Cell.num 10, Cell.num 20], [Cell.num 5, Cell.num 40]]).head? =
      some [Cell.num 100, Cell.num 100] :=
  c6_fila_base_100 [Cell.num 10, Cell.num 20] [[Cell.num 5, Cell.num 40]]
    (by decide)

/-- C4 counterexample: a subject column with exactly one historical
observation.  The NVDA alert block reads only the last value, so it
classifies the subject into the operating-range band instead of emitting
the data-unavailable outcome the claim demands. -/
theorem c4_counterexample :
    ([Cell.num 200] : List Cell).length = 1 ∧
    alerta_nvda [Cell.num 200] = Alerta.clasificada Severidad.normal ∧
    alerta_nvda [Cell.num 200] ≠ Alerta.sin_verificar := by
  decide

/-- C4 amended: with zero observations an alert block emits the
could-not-verify outcome (its exception is caught inside its own try
block, leaving the other subject classified normally); with exactly one
observation the KPI day-over-day blocks emit N/A because iloc[-2] fails,
while the threshold alert blocks, which read only the last value,
classify it against the bands. -/
theorem c4_un_dato (p : ℚ) :
    (alerta_nvda [] = Alerta.sin_verificar ∧
      alerta_usdmxn [] = Alerta.sin_verificar ∧
      evalua_alertas [] [Cell.num 18] =
        (Alerta.sin_verificar, Alerta.clasificada Severidad.normal)) ∧
    (∀ c : Cell, kpi_metric [c] = Kpi.na) ∧
    (alerta_nvda [Cell.num p] = Alerta.clasificada (clasifica_nvda p) ∧
      alerta_usdmxn [Cell.num p] = Alerta.clasificada (clasifica_usdmxn p)) := by
  refine ⟨by decide, fun c => rfl, ?_, ?_⟩
  · simp only [alerta_nvda, List.getLast?_singleton, Cell.ltQ, Cell.gtQ,
      clasifica_nvda, decide_eq_true_eq]
    split_ifs <;> rfl
  · simp only [alerta_usdmxn, List.getLast?_singleton, Cell.ltQ, Cell.gtQ,
      clasifica_usdmxn, decide_eq_true_eq]
    split_ifs <;> rfl

theorem c4_witness :
    alerta_nvda [Cell.num 400] = Alerta.clasificada (clasifica_nvda 400) :=
  (c4_un_dato 400).2.2.1

/-
Structure of the daily-return table on fully observed tables.
-/

theorem esPositivo_no_nan {c : Cell} (h : c.esPositivo = true) :
    c.isna = false := by
  obtain ⟨q, _, rfl⟩ := esPositivo_elim h
  rfl

theorem zipWith_ffill_id (prev r : List Cell)
    (hnn : ∀ c ∈ r, c.isna = false) (hlen : r.length ≤ prev.length) :
    List.zipWith ffillCell prev r = r := by
  induction r generalizing prev with
  | nil => simp
  | cons c cs ih =>
      cases prev with
      | nil => simp at hlen
      | cons p ps =>
          have h1 : ffillCell p c = c := by
            simp [ffillCell, hnn c (List.mem_cons_self c cs)]
          simp only [List.zipWith_cons_cons, h1]
          rw [ih ps (fun x hx => hnn x (List.mem_cons_of_mem c hx))
            (by simp at hlen ⊢; omega)]

theorem ffillFrom_id (w : ℕ) (prev : List Cell) (rows : List (List Cell))
    (hp : prev.length = w) (hw : ∀ r ∈ rows, r.length = w)
    (hnn : ∀ r ∈ rows, ∀ c ∈ r, c.isna = false) :
    ffillFrom prev rows = rows := by
  induction rows generalizing prev with
  | nil => rfl
  | cons r rs ih =>
      have hr : List.zipWith ffillCell prev r = r :=
        zipWith_ffill_id prev r (hnn r (List.mem_cons_self r rs))
          (by rw [hp, hw r (List.mem_cons_self r rs)])
      show (List.zipWith ffillCell prev r) ::
          ffillFrom (List.zipWith ffillCell prev r) rs = r :: rs
      rw [hr]
      congr 1
      exact ih r (hw r (List.mem_cons_self r rs))
        (fun x hx => hw x (List.mem_cons_of_mem r hx))
        (fun x hx c hc => hnn x (List.mem_cons_of_mem r hx) c hc)

theorem ffillRows_id (w : ℕ) (rows : List (List Cell))
    (hw : ∀ r ∈ rows, r.length = w)
    (hnn : ∀ r ∈ rows, ∀ c ∈ r, c.isna = false) :
    ffillRows rows = rows := by
  cases rows with
  | nil => rfl
  | cons r rs =>
      show r :: ffillFrom r rs = r :: rs
      congr 1
      exact ffillFrom_id w r rs (hw r (List.mem_cons_self r rs))
        (fun x hx => hw x (List.mem_cons_of_mem r hx))
        (fun x hx c hc => hnn x (List.mem_cons_of_mem r hx) c hc)

theorem rendimientos_estructura (w : ℕ) (rows : List (List Cell))
    (htc : tablaCompleta w rows = true) (hw0 : 0 < w) :
    rendimientos_diarios rows =
      List.zipWith (fun pr cr => List.zipWith pctCell pr cr) rows rows.tail := by
  have hw := tablaCompleta_ancho htc
  have hpos := tablaCompleta_pos htc
  have hnn : ∀ r ∈ rows, ∀ c ∈ r, c.isna = false :=
    fun r hr c hc => esPositivo_no_nan (hpos r hr c hc)
  have hff : ffillRows rows = rows := ffillRows_id w rows hw hnn
  unfold rendimientos_diarios pctRows
  rw [hff]
  cases rows with
  | nil => rfl
  | cons r0 rest =>
      unfold dropnaRows
      rw [List.filter_cons]
      have hdrop : ((r0.map fun _ => Cell.nan).all fun c => !c.isna) = false := by
        cases r0 with
        | nil =>
            exfalso
            have h0 : ([] : List Cell).length = w :=
              hw [] (List.mem_cons_self [] rest)
            simp at h0
            omega
        | cons c cs => simp [Cell.isna]
      rw [hdrop]
      simp only [Bool.false_eq_true, if_false]
      apply List.filter_eq_self.mpr
      intro row hrow
      obtain ⟨i, hi, hrow_eq⟩ := List.mem_iff_getElem.mp hrow
      subst hrow_eq
      rw [List.getElem_zipWith]
      rw [List.all_eq_true]
      intro c hc
      obtain ⟨j, hj, hc_eq⟩ := List.mem_iff_getElem.mp hc
      subst hc_eq
      rw [List.getElem_zipWith]
      have hi1 : i < (r0 :: rest).length := List.lt_length_left_of_zipWith hi
      have hi2 : i < (r0 :: rest).tail.length := List.lt_length_right_of_zipWith hi
      have hj1 : j < ((r0 :: rest)[i]).length := List.lt_length_left_of_zipWith hj
      have hj2 : j < ((r0 :: rest).tail[i]).length := List.lt_length_right_of_zipWith hj
      obtain ⟨a, ha, hEqa⟩ := esPositivo_elim
        (hpos ((r0 :: rest)[i]) (List.getElem_mem hi1)
          (((r0 :: rest)[i])[j]) (List.getElem_mem hj1))
      obtain ⟨b, hb, hEqb⟩ := esPositivo_elim
        (hpos ((r0 :: rest).tail[i]) (List.mem_of_mem_tail (List.getElem_mem hi2))
          (((r0 :: rest).tail[i])[j]) (List.getElem_mem hj2))
      rw [hEqa, hEqb, pctCell_num (ne_of_gt ha)]
      rfl

/-- C1 counterexample: a legitimate Price Table (leading missing values
before the listing date of its only asset) with 3 rows whose daily-return
table is empty, not of length 2: dropna discards every row containing a
NaN, not only the first row. -/
theorem c1_contraejemplo :
    esTablaPrecios 1 [[Cell.nan], [Cell.nan], [Cell.num 13]] = true ∧
    ([[Cell.nan], [Cell.nan], [Cell.num 13]] : List (List Cell)).length = 3 ∧
    (rendimientos_diarios [[Cell.nan], [Cell.nan], [Cell.num 13]]).length = 0 := by
  decide

/-- C1 amended: for every fully observed Price Table (no missing cells,
positive prices, at least one column) with N rows, the daily-return table
has exactly N - 1 rows, and its row t holds price[t+1] / price[t] - 1 in
every column. -/
theorem c1_rendimientos (w : ℕ) (rows : List (List Cell))
    (htc : tablaCompleta w rows = true) (hw0 : 0 < w) :
    (rendimientos_diarios rows).length = rows.length - 1 ∧
    ∀ t j (a b : ℚ), t + 1 < rows.length → j < w →
      (rows.getD t []).getD j Cell.nan = Cell.num a →
      (rows.getD (t + 1) []).getD j Cell.nan = Cell.num b →
      ((rendimientos_diarios rows).getD t []).getD j Cell.nan =
        Cell.num (b / a - 1) := by
  have hw := tablaCompleta_ancho htc
  have hmain := rendimientos_estructura w rows htc hw0
  have hlen : (rendimientos_diarios rows).length = rows.length - 1 := by
    rw [hmain, List.length_zipWith, List.length_tail]
    omega
  refine ⟨hlen, ?_⟩
  intro t j a b ht hj hA hB
  have ht0 : t < rows.length := by omega
  have htz : t < (List.zipWith (fun pr cr => List.zipWith pctCell pr cr)
      rows rows.tail).length := by
    rw [List.length_zipWith, List.length_tail]
    omega
  rw [hmain]
  rw [List.getD_eq_getElem _ _ htz, List.getElem_zipWith]
  have hwt : (rows[t]).length = w := hw _ (List.getElem_mem ht0)
  have ht1t : t < rows.tail.length := by
    rw [List.length_tail]
    omega
  have hwt1 : (rows.tail[t]).length = w :=
    hw _ (List.mem_of_mem_tail (List.getElem_mem ht1t))
  have hjz : j < (List.zipWith pctCell rows[t] (rows.tail[t])).length := by
    rw [List.length_zipWith, hwt, hwt1]
    omega
  rw [List.getD_eq_getElem _ _ hjz, List.getElem_zipWith]
  have hjw1 : j < (rows[t]).length := by
    rw [hwt]
    omega
  rw [List.getD_eq_getElem _ _ ht0] at hA
  rw [List.getD_eq_getElem _ _ hjw1] at hA
  have hwt2 : (rows[t + 1]).length = w := hw _ (List.getElem_mem ht)
  have hjw2 : j < (rows[t + 1]).length := by
    rw [hwt2]
    omega
  rw [List.getD_eq_getElem _ _ ht] at hB
  rw [List.getD_eq_getElem _ _ hjw2] at hB
  have hjt : j < (rows.tail[t]).length := by
    rw [hwt1]
    omega
  rw [← List.getD_eq_getElem (rows.tail[t]) Cell.nan hjt]
  have e1 : rows.tail[t] = rows[t + 1] := List.getElem_tail rows t ht1t
  have hD : (rows.tail[t]).getD j Cell.nan = Cell.num b := by
    rw [congrArg (fun l => List.getD l j Cell.nan) e1,
      List.getD_eq_getElem _ _ hjw2]
    exact hB
  rw [hD, hA]
  have hposA : (Cell.num a).esPositivo = true := by
    rw [← hA]
    exact tablaCompleta_pos htc _ (List.getElem_mem ht0) _ (List.getElem_mem hjw1)
  obtain ⟨q, hq, heq⟩ := esPositivo_elim hposA
  have haq : a = q := by
    simpa [Cell.num.injEq] using heq
  exact pctCell_num (by rw [haq]; exact ne_of_gt hq)

theorem c1_witness :
    (rendimientos_diarios [[Cell.num 10], [Cell.num 20], [Cell.num 30]]).length = 2 ∧
    ((rendimientos_diarios [[Cell.num 10], [Cell.num 20], [Cell.num 30]]).getD 0 []).getD 0 Cell.nan =
      Cell.num ((20 : ℚ) / 10 - 1) :=
  ⟨(c1_rendimientos 1 [[Cell.num 10], [Cell.num 20], [Cell.num 30]]
      (by decide) (by decide)).1,
    (c1_rendimientos 1 [[Cell.num 10], [Cell.num 20], [Cell.num 30]]
      (by decide) (by decide)).2 0 0 10 20
      (by decide) (by decide) (by decide) (by decide)⟩

/-
Pearson correlation: symmetry, unit diagonal and the Cauchy-Schwarz bound.
-/

theorem varS_eq_sum_sq (xs : List ℚ) :
    varS xs = ∑ i ∈ Finset.range xs.length, (xs.getD i 0 - media xs) ^ 2 := by
  unfold varS covS
  exact Finset.sum_congr rfl fun i _ => (pow_two (xs.getD i 0 - media xs)).symm

theorem varS_nonneg (xs : List ℚ) : 0 ≤ varS xs := by
  rw [varS_eq_sum_sq]
  exact Finset.sum_nonneg fun i _ => sq_nonneg _

theorem covS_comm (xs ys : List ℚ) (h : xs.length = ys.length) :
    covS xs ys = covS ys xs := by
  unfold covS
  rw [h]
  exact Finset.sum_congr rfl fun i _ => mul_comm _ _

theorem covS_sq_le (xs ys : List ℚ) (h : xs.length = ys.length) :
    covS xs ys ^ 2 ≤ varS xs * varS ys := by
  rw [varS_eq_sum_sq, varS_eq_sum_sq, ← h]
  unfold covS
  exact Finset.sum_mul_sq_le_sq_mul_sq (Finset.range xs.length)
    (fun i => xs.getD i 0 - media xs) (fun i => ys.getD i 0 - media ys)

theorem corrP_self (xs : List ℚ) (hx : varS xs ≠ 0) : corrP xs xs = 1 := by
  unfold corrP
  have hnn : (0 : ℝ) ≤ (varS xs : ℝ) := by
    exact_mod_cast varS_nonneg xs
  have hne : (varS xs : ℝ) ≠ 0 := by
    exact_mod_cast hx
  rw [Real.sqrt_mul_self hnn]
  rw [show covS xs xs = varS xs from rfl]
  exact div_self hne

theorem abs_corrP_le_one (xs ys : List ℚ) (h : xs.length = ys.length)
    (hx : varS xs ≠ 0) (hy : varS ys ≠ 0) : |corrP xs ys| ≤ 1 := by
  unfold corrP
  have hxnn : (0 : ℝ) ≤ (varS xs : ℝ) := by
    exact_mod_cast varS_nonneg xs
  have hynn : (0 : ℝ) ≤ (varS ys : ℝ) := by
    exact_mod_cast varS_nonneg ys
  have hxp : (0 : ℝ) < (varS xs : ℝ) :=
    lt_of_le_of_ne hxnn (by exact_mod_cast Ne.symm hx)
  have hyp : (0 : ℝ) < (varS ys : ℝ) :=
    lt_of_le_of_ne hynn (by exact_mod_cast Ne.symm hy)
  have hs : 0 < Real.sqrt ((varS xs : ℝ) * (varS ys : ℝ)) :=
    Real.sqrt_pos.mpr (mul_pos hxp hyp)
  rw [abs_div, abs_of_nonneg (Real.sqrt_nonneg _), div_le_one hs]
  have hcs : ((covS xs ys : ℝ)) ^ 2 ≤ (varS xs : ℝ) * (varS ys : ℝ) := by
    exact_mod_cast covS_sq_le xs ys h
  calc |(covS xs ys : ℝ)|
      = Real.sqrt ((covS xs ys : ℝ) ^ 2) := (Real.sqrt_sq_eq_abs _).symm
    _ ≤ Real.sqrt ((varS xs : ℝ) * (varS ys : ℝ)) := Real.sqrt_le_sqrt hcs

/-- C8 counterexample: a return table with 2 columns and 2 rows whose first
column is constant (an asset whose price did not move).  Its variance is
zero, so the diagonal entry of the correlation matrix is the indeterminate
0 / 0 (pandas shows NaN there), not 1.0 as the claim demands for every
such table. -/
theorem c8_contraejemplo :
    (2 : ℕ) ≤ ([[0, 0], [1, 2]] : List (List ℚ)).length ∧
    (∀ c ∈ ([[0, 0], [1, 2]] : List (List ℚ)), c.length = 2) ∧
    matriz_corr [[0, 0], [1, 2]] 0 0 ≠ 1 := by
  refine ⟨by norm_num, ?_, ?_⟩
  · intro c hc
    fin_cases hc <;> rfl
  · have hv : varS ([0, 0] : List ℚ) = 0 := by
      norm_num [varS, covS, media, Finset.sum_range_succ, List.getD]
    have hgd : (([[0, 0], [1, 2]] : List (List ℚ)).getD 0 []) = ([0, 0] : List ℚ) := rfl
    unfold matriz_corr corrP
    rw [hgd, hv]
    simp [Real.sqrt_zero]

/-- C8 amended: for every filtered return table with at least 2 columns
and at least 2 rows, the correlation matrix is symmetric; and provided a
column has nonzero variance its diagonal entry is 1, and provided both
columns have nonzero variance the entry lies in the interval from -1 to 1.
A zero-variance column makes its entries indeterminate (NaN in pandas)
rather than giving a unit diagonal. -/
theorem c8_matriz (cols : List (List ℚ)) (m : ℕ) (h2c : 2 ≤ cols.length)
    (hrect : ∀ c ∈ cols, c.length = m) (h2r : 2 ≤ m) :
    (∀ i j, i < cols.length → j < cols.length →
      matriz_corr cols i j = matriz_corr cols j i) ∧
    (∀ i, i < cols.length → varS (cols.getD i []) ≠ 0 →
      matriz_corr cols i i = 1) ∧
    (∀ i j, i < cols.length → j < cols.length →
      varS (cols.getD i []) ≠ 0 → varS (cols.getD j []) ≠ 0 →
      |matriz_corr cols i j| ≤ 1) := by
  have hlen : ∀ i, i < cols.length → (cols.getD i []).length = m := by
    intro i hi
    rw [List.getD_eq_getElem _ _ hi]
    exact hrect _ (List.getElem_mem hi)
  refine ⟨?_, ?_, ?_⟩
  · intro i j hi hj
    unfold matriz_corr corrP
    rw [covS_comm _ _ (by rw [hlen i hi, hlen j hj]), mul_comm]
  · intro i hi hvi
    exact corrP_self _ hvi
  · intro i j hi hj hvi hvj
    exact abs_corrP_le_one _ _ (by rw [hlen i hi, hlen j hj]) hvi hvj

theorem c8_witness : matriz_corr [[0, 1], [1, 0]] 0 0 = 1 :=
  (c8_matriz [[0, 1], [1, 0]] 2 (by norm_num)
    (by intro c hc; fin_cases hc <;> rfl) (by norm_num)).2.1 0 (by norm_num)
    (by norm_num [varS, covS, media, Finset.sum_range_succ, List.getD])

/-- C9: the growth index is normalized on the full fetched table before any
date filtering, so every row of the filtered table is a row of the full
base-100 table (anchored at the first date of the full window), merely
restricted to the chosen columns; consequently a range starting after the
first date yields, in general, a filtered first row different from 100, as
the concrete instance shows. -/
theorem c9_filtrado_despues_de_normalizar :
    (∀ (fechas : List ℤ) (rows : List (List Cell)) (a b : ℤ)
        (cols : List ℕ) (p : ℤ × List Cell),
      p ∈ data_filtrada fechas rows a b cols →
      ∃ t, t < fechas.length ∧ t < (data_normalizada rows).length ∧
        p.1 = fechas.getD t 0 ∧ a ≤ p.1 ∧ p.1 ≤ b ∧
        p.2 = selecciona_columnas cols ((data_normalizada rows).getD t [])) ∧
    (data_filtrada [0, 1] [[Cell.num 10], [Cell.num 20]] 1 1 [0] =
        [(1, [Cell.num 200])] ∧
      (0 : ℤ) < 1 ∧ Cell.num 200 ≠ Cell.num 100) := by
  constructor
  · intro fechas rows a b cols p hp
    unfold data_filtrada at hp
    rw [List.mem_map] at hp
    obtain ⟨q, hq, hpq⟩ := hp
    rw [List.mem_filter] at hq
    obtain ⟨hzip, hrange⟩ := hq
    rw [Bool.and_eq_true, decide_eq_true_eq, decide_eq_true_eq] at hrange
    obtain ⟨t, ht, hqt⟩ := List.mem_iff_getElem.mp hzip
    rw [List.getElem_zip] at hqt
    subst hqt
    subst hpq
    have ht1 : t < fechas.length := by
      rw [List.length_zip] at ht
      omega
    have ht2 : t < (data_normalizada rows).length := by
      rw [List.length_zip] at ht
      omega
    refine ⟨t, ht1, ht2, ?_, hrange.1, hrange.2, ?_⟩
    · show fechas[t] = fechas.getD t 0
      rw [List.getD_eq_getElem _ _ ht1]
    · show selecciona_columnas cols (data_normalizada rows)[t] =
        selecciona_columnas cols ((data_normalizada rows).getD t [])
      rw [List.getD_eq_getElem _ _ ht2]
  · refine ⟨?_, by norm_num, by decide⟩
    norm_num [data_filtrada, data_normalizada, selecciona_columnas,
      Cell.divC, Cell.mul100, List.getD]

theorem c9_witness :
    ∃ t, t < ([0, 1] : List ℤ).length ∧
      t < (data_normalizada [[Cell.num 10], [Cell.num 20]]).length ∧
      ((1 : ℤ), [Cell.num 200]).1 = ([0, 1] : List ℤ).getD t 0 ∧
      (1 : ℤ) ≤ ((1 : ℤ), [Cell.num 200]).1 ∧
      ((1 : ℤ), [Cell.num 200]).1 ≤ 1 ∧
      ((1 : ℤ), [Cell.num 200]).2 =
        selecciona_columnas [0]
          ((data_normalizada [[Cell.num 10], [Cell.num 20]]).getD t []) :=
  c9_filtrado_despues_de_normalizar.1 [0, 1] [[Cell.num 10], [Cell.num 20]]
    1 1 [0] (1, [Cell.num 200])
    (by
      rw [c9_filtrado_despues_de_normalizar.2.1]
      exact List.mem_singleton.mpr rfl)
